import Mathlib

/-
  Verification of the Windows launcher platform code in
  src/launcher/java_md.c against its natural-language specification.

  Modelling conventions:
  * C strings (path buffers, registry value names and data) are `List Char`.
  * `stat` on the filesystem is an oracle `List Char → Bool` supplied by the
    environment (`true` means the status query returned 0, i.e. the file
    exists).
  * The Windows registry is a read-only store (`Registry`) with the one root
    key the code opens, its string values, and its child keys with their
    string values.  Registry handle open/close calls are recorded as an
    event trace so that resource balance is provable.
  * Failure diagnostics written to stderr are recorded as a list of `Diag`
    values carrying the data the corresponding `fprintf` interpolates.
  * `jlong` / `LARGE_INTEGER.QuadPart` values are modelled as `Int`; the C
    division on jlong truncates toward zero, which is `Int.tdiv`.
  * The build is the release build, so JAVA_DLL = "java.dll" and
    JVM_DLL = "jvm.dll".
-/

namespace JavaMd

/-- The Windows path separator character. -/
def backslash : Char := '\\'

/-- Convenience conversion from a Lean string literal to the char-list model. -/
def str (s : String) : List Char := s.toList

/-- Number of backslashes in a path, i.e. the number of path segments in
front of the final file-name component. -/
def bsCount : List Char → Nat
  | [] => 0
  | c :: rest => (if c = backslash then 1 else 0) + bsCount rest

/-- The effect of `*strrchr(buf, '\\') = '\0'`: truncate the buffer just
before its last backslash.  Returns `none` when the buffer holds no
backslash at all (in which case `strrchr` returns NULL). -/
def truncAtLastSep : List Char → Option (List Char)
  | [] => none
  | c :: rest =>
    match truncAtLastSep rest with
    | some t => some (c :: t)
    | none => if c = backslash then some [] else none

/-- Outcome of `GetApplicationHome`: success with the home path written to
the buffer, failure with the buffer cleared, or the undefined behaviour of
writing through the NULL returned by the first `strrchr` when the module
file name holds no separator at all. -/
inductive AppHomeResult
  | ok (home : List Char)
  | fail
  | crash
  deriving DecidableEq

/-- `GetApplicationHome` from src/launcher/java_md.c: the module file name
of the executable is truncated at its last backslash (dropping the .exe
file name) and then at the next-to-last backslash (dropping the assumed
bin-style directory).  If the second truncation finds no backslash the
buffer is cleared and the call fails. -/
def GetApplicationHome (exePath : List Char) : AppHomeResult :=
  match truncAtLastSep exePath with
  | none => .crash
  | some dir =>
    match truncAtLastSep dir with
    | none => .fail
    | some home => .ok home

theorem bsCount_append (l1 l2 : List Char) :
    bsCount (l1 ++ l2) = bsCount l1 + bsCount l2 := by
  induction l1 with
  | nil => simp [bsCount]
  | cons c r ih => simp [bsCount, ih, Nat.add_assoc]

theorem bsCount_eq_zero (l : List Char) : bsCount l = 0 ↔ backslash ∉ l := by
  induction l with
  | nil => simp [bsCount]
  | cons c r ih =>
    by_cases hc : c = backslash
    · simp [bsCount, hc]
    · simp [bsCount, hc, ih, List.mem_cons, Ne.symm hc]

theorem trunc_eq_none_iff (l : List Char) :
    truncAtLastSep l = none ↔ backslash ∉ l := by
  induction l with
  | nil => simp [truncAtLastSep]
  | cons c rest ih =>
    cases h : truncAtLastSep rest with
    | some t =>
      have hmem : backslash ∈ rest := by
        by_contra hnm
        rw [ih.mpr hnm] at h
        exact Option.noConfusion h
      simp [truncAtLastSep, h, List.mem_cons, hmem]
    | none =>
      have hnm : backslash ∉ rest := ih.mp h
      by_cases hc : c = backslash
      · simp [truncAtLastSep, h, hc, List.mem_cons]
      · simp [truncAtLastSep, h, hc, List.mem_cons, hnm, Ne.symm hc]

theorem trunc_eq_some_decomp (l t : List Char) (h : truncAtLastSep l = some t) :
    ∃ s, l = t ++ backslash :: s ∧ backslash ∉ s := by
  induction l generalizing t with
  | nil => simp [truncAtLastSep] at h
  | cons c rest ih =>
    rw [truncAtLastSep] at h
    cases hr : truncAtLastSep rest with
    | some t' =>
      rw [hr] at h
      obtain ⟨s, hs, hns⟩ := ih t' hr
      cases h
      exact ⟨s, by simp [hs], hns⟩
    | none =>
      rw [hr] at h
      by_cases hc : c = backslash
      · rw [if_pos hc] at h
        cases h
        exact ⟨rest, by simp [hc], (trunc_eq_none_iff rest).mp hr⟩
      · rw [if_neg hc] at h
        exact Option.noConfusion h

theorem trunc_some_of_mem (l : List Char) (h : backslash ∈ l) :
    ∃ t, truncAtLastSep l = some t := by
  cases htr : truncAtLastSep l with
  | none => exact absurd ((trunc_eq_none_iff l).mp htr) (by simp [h])
  | some t => exact ⟨t, rfl⟩

theorem bsCount_pos_of_mem (l : List Char) (h : backslash ∈ l) : 1 ≤ bsCount l := by
  by_contra hn
  have h0 : bsCount l = 0 := by omega
  exact absurd h ((bsCount_eq_zero l).mp h0)

theorem mem_of_bsCount_pos (l : List Char) (h : 1 ≤ bsCount l) : backslash ∈ l := by
  by_contra hn
  have h0 : bsCount l = 0 := (bsCount_eq_zero l).mpr hn
  omega

/-- Claim C5: for every executable path with at least two backslash-separated
path segments before the file name, `GetApplicationHome` strips exactly two
segments (the executable name and one assumed bin-style directory) and
succeeds; for every path with fewer than two such segments (but containing
at least the one separator every Windows module file name has) it yields no
candidate and returns failure. -/
theorem claim_C5 (p : List Char) (hbs : 1 ≤ bsCount p) :
    (2 ≤ bsCount p →
      ∃ home s1 s2, backslash ∉ s1 ∧ backslash ∉ s2 ∧
        p = home ++ backslash :: s1 ++ backslash :: s2 ∧
        GetApplicationHome p = AppHomeResult.ok home) ∧
    (bsCount p < 2 → GetApplicationHome p = AppHomeResult.fail) := by
  obtain ⟨dir, hdir⟩ := trunc_some_of_mem p (mem_of_bsCount_pos p hbs)
  obtain ⟨s2, hp2, hns2⟩ := trunc_eq_some_decomp p dir hdir
  have hcount : bsCount p = bsCount dir + 1 := by
    rw [hp2, bsCount_append]
    simp [bsCount, (bsCount_eq_zero s2).mpr hns2]
  constructor
  · intro h2
    have hd1 : 1 ≤ bsCount dir := by omega
    obtain ⟨home, hhome⟩ := trunc_some_of_mem dir (mem_of_bsCount_pos dir hd1)
    obtain ⟨s1, hd2, hns1⟩ := trunc_eq_some_decomp dir home hhome
    refine ⟨home, s1, s2, hns1, hns2, ?_, ?_⟩
    · rw [hp2, hd2]
    · simp [GetApplicationHome, hdir, hhome]
  · intro hlt
    have h0 : bsCount dir = 0 := by omega
    have hnone : truncAtLastSep dir = none :=
      (trunc_eq_none_iff dir).mpr ((bsCount_eq_zero dir).mp h0)
    simp [GetApplicationHome, hdir, hnone]

theorem claim_C5_witness :
    1 ≤ bsCount (str "C:\\jdk\\bin\\java.exe") ∧
    ((2 ≤ bsCount (str "C:\\jdk\\bin\\java.exe") →
      ∃ home s1 s2, backslash ∉ s1 ∧ backslash ∉ s2 ∧
        str "C:\\jdk\\bin\\java.exe" = home ++ backslash :: s1 ++ backslash :: s2 ∧
        GetApplicationHome (str "C:\\jdk\\bin\\java.exe") = AppHomeResult.ok home) ∧
    (bsCount (str "C:\\jdk\\bin\\java.exe") < 2 →
      GetApplicationHome (str "C:\\jdk\\bin\\java.exe") = AppHomeResult.fail)) :=
  ⟨by decide, claim_C5 (str "C:\\jdk\\bin\\java.exe") (by decide)⟩

/-! ## Registry model and GetPublicJREHome -/

/-- Registry value type tag: `REG_SZ` or anything else. -/
inductive RegType
  | sz
  | other
  deriving DecidableEq

/-- The read-only registry state the launcher consults, seen from the key
`HKEY_LOCAL_MACHINE\Software\JavaSoft\Java Runtime Environment`:
whether that root key opens, its string values, and for each child-key name
whether the child opens and what string values it holds.  A value is a pair
of its type tag and its character data; its stored byte size is the data
length plus the terminating NUL. -/
structure Registry where
  rootExists : Bool
  rootValue : List Char → Option (RegType × List Char)
  subkeyExists : List Char → Bool
  subValue : List Char → List Char → Option (RegType × List Char)

/-- MAXPATHLEN from the launcher's java.h (not part of this file); the
claims settled here do not depend on the exact value. -/
def MAXPATHLEN : Nat := 1024

/-- The single accepted JRE version string, `#define DOTRELEASE "1.3"`. -/
def DOTRELEASE : List Char := str "1.3"

def strCurrentVersion : List Char := str "CurrentVersion"

def strJavaHome : List Char := str "JavaHome"

/-- `GetStringFromRegistry`: queries the value's type and size, requires a
successful query with type REG_SZ and size strictly below the buffer size,
then reads the data. -/
def GetStringFromRegistry (q : List Char → Option (RegType × List Char))
    (nm : List Char) (bufsize : Nat) : Option (List Char) :=
  match q nm with
  | some (t, data) =>
    if t = RegType.sz ∧ data.length + 1 < bufsize then some data else none
  | none => none

/-- Registry-handle events: handle 0 is the root JRE key, handle 1 the
version child key. -/
inductive RegEvent
  | opened (k : Nat)
  | closed (k : Nat)
  deriving DecidableEq

/-- Diagnostics written to stderr, carrying the data the corresponding
`fprintf` interpolates. -/
inductive Diag
  | errCouldNotFindJavaDll
  | errLoading (path : List Char)
  | errNoJNI (path : List Char)
  | errOpenRootKey
  | errReadCurrentVersion
  | errVersionMismatch (actual required : List Char)
  | errOpenVersionKey (version : List Char)
  | errReadJavaHome (version : List Char)
  deriving DecidableEq

/-- Result of `GetPublicJREHome`: the JavaHome path on success, plus the
registry-handle event trace and the stderr diagnostics of the call. -/
structure JREHomeOut where
  result : Option (List Char)
  events : List RegEvent
  diags : List Diag
  deriving DecidableEq

/-- `GetPublicJREHome` from src/launcher/java_md.c: open the JRE root key,
read `CurrentVersion`, require it to equal DOTRELEASE by exact string
comparison, open the child key named by the version, and read `JavaHome`
into the caller's buffer.  Every failure closes all handles opened so far,
reports a diagnostic and returns failure. -/
def GetPublicJREHome (reg : Registry) (bufsize : Nat) : JREHomeOut :=
  if reg.rootExists = false then
    ⟨none, [], [Diag.errOpenRootKey]⟩
  else
    match GetStringFromRegistry reg.rootValue strCurrentVersion MAXPATHLEN with
    | none =>
      ⟨none, [RegEvent.opened 0, RegEvent.closed 0], [Diag.errReadCurrentVersion]⟩
    | some version =>
      if version ≠ DOTRELEASE then
        ⟨none, [RegEvent.opened 0, RegEvent.closed 0],
          [Diag.errVersionMismatch version DOTRELEASE]⟩
      else if reg.subkeyExists version = false then
        ⟨none, [RegEvent.opened 0, RegEvent.closed 0],
          [Diag.errOpenVersionKey version]⟩
      else
        match GetStringFromRegistry (reg.subValue version) strJavaHome bufsize with
        | none =>
          ⟨none,
            [RegEvent.opened 0, RegEvent.opened 1, RegEvent.closed 0, RegEvent.closed 1],
            [Diag.errReadJavaHome version]⟩
        | some home =>
          ⟨some home,
            [RegEvent.opened 0, RegEvent.opened 1, RegEvent.closed 0, RegEvent.closed 1],
            []⟩

/-- Claim C4: whenever the CurrentVersion value is readable but differs from
the hard-coded accepted version "1.3" under exact string equality,
`GetPublicJREHome` fails with no result, does not open the child key (its
event trace holds only the root-key open and close), and writes a diagnostic
naming both the actual and the required version values. -/
theorem claim_C4 (reg : Registry) (bufsize : Nat) (v : List Char)
    (h1 : reg.rootExists = true)
    (h2 : GetStringFromRegistry reg.rootValue strCurrentVersion MAXPATHLEN = some v)
    (h3 : v ≠ DOTRELEASE) :
    (GetPublicJREHome reg bufsize).result = none ∧
    (GetPublicJREHome reg bufsize).events = [RegEvent.opened 0, RegEvent.closed 0] ∧
    (GetPublicJREHome reg bufsize).diags = [Diag.errVersionMismatch v DOTRELEASE] := by
  simp [GetPublicJREHome, h1, h2, h3]

theorem claim_C4_witness :
    (Registry.mk true (fun _ => some (RegType.sz, str "1.4"))
        (fun _ => false) (fun _ _ => none)).rootExists = true ∧
    GetStringFromRegistry
      (Registry.mk true (fun _ => some (RegType.sz, str "1.4"))
        (fun _ => false) (fun _ _ => none)).rootValue
      strCurrentVersion MAXPATHLEN = some (str "1.4") ∧
    str "1.4" ≠ DOTRELEASE ∧
    ((GetPublicJREHome (Registry.mk true (fun _ => some (RegType.sz, str "1.4"))
        (fun _ => false) (fun _ _ => none)) 256).result = none ∧
     (GetPublicJREHome (Registry.mk true (fun _ => some (RegType.sz, str "1.4"))
        (fun _ => false) (fun _ _ => none)) 256).events
       = [RegEvent.opened 0, RegEvent.closed 0] ∧
     (GetPublicJREHome (Registry.mk true (fun _ => some (RegType.sz, str "1.4"))
        (fun _ => false) (fun _ _ => none)) 256).diags
       = [Diag.errVersionMismatch (str "1.4") DOTRELEASE]) :=
  ⟨rfl, by decide, by decide,
    claim_C4 (Registry.mk true (fun _ => some (RegType.sz, str "1.4"))
      (fun _ => false) (fun _ _ => none)) 256 (str "1.4") rfl (by decide) (by decide)⟩

/-- Claim C6: on every exit path of `GetPublicJREHome` — success or any
failure — a registry handle appears as opened in the call's event trace
exactly when it appears as closed: every successfully opened handle is
released before the function returns. -/
theorem claim_C6 (reg : Registry) (bufsize : Nat) (k : Nat) :
    RegEvent.opened k ∈ (GetPublicJREHome reg bufsize).events ↔
      RegEvent.closed k ∈ (GetPublicJREHome reg bufsize).events := by
  unfold GetPublicJREHome
  split
  · simp
  · split
    · simp
    · split
      · simp
      · split
        · simp
        · split <;> simp

/-! ## GetJREPath -/

/-- The environment `GetJREPath` runs in: the module file name of the
launching executable, the filesystem `stat` oracle, and the registry. -/
structure Env where
  exePath : List Char
  statOk : List Char → Bool
  reg : Registry

/-- Outcome of `GetJREPath`; `crash` propagates the undefined behaviour of
`GetApplicationHome` on a separator-free module file name. -/
inductive JREPathResult
  | ok (path : List Char)
  | notFound
  | crash
  deriving DecidableEq

/-- Suffix appended by `sprintf(javadll, "%s\\bin\\" JAVA_DLL, path)`. -/
def binJavaDll : List Char := str "\\bin\\java.dll"

/-- Suffix appended by `sprintf(javadll, "%s\\jre\\bin\\" JAVA_DLL, path)`. -/
def jreBinJavaDll : List Char := str "\\jre\\bin\\java.dll"

/-- `GetJREPath` from src/launcher/java_md.c.  Returns the resolved JRE home
together with the number of times the registry probe `GetPublicJREHome` was
invoked.  When the application home resolves, `<apphome>\bin\java.dll` is
tried first, then `<apphome>\jre\bin\java.dll` (appending `\jre` to the
home); only if both stats fail — or the application home did not resolve —
is the registry probed, and its result is used verbatim. -/
def GetJREPath (env : Env) (pathsize : Nat) : JREPathResult × Nat :=
  match GetApplicationHome env.exePath with
  | AppHomeResult.crash => (JREPathResult.crash, 0)
  | AppHomeResult.ok home =>
    if env.statOk (home ++ binJavaDll) then (JREPathResult.ok home, 0)
    else if env.statOk (home ++ jreBinJavaDll) then
      (JREPathResult.ok (home ++ str "\\jre"), 0)
    else
      match (GetPublicJREHome env.reg pathsize).result with
      | some h => (JREPathResult.ok h, 1)
      | none => (JREPathResult.notFound, 1)
  | AppHomeResult.fail =>
    match (GetPublicJREHome env.reg pathsize).result with
    | some h => (JREPathResult.ok h, 1)
    | none => (JREPathResult.notFound, 1)

/-- Claim C1: `GetJREPath` resolves the runtime home in fixed priority order
with first success winning: when the application home resolves it first
checks `<apphome>\bin\java.dll` (candidate = apphome, registry never
consulted), then `<apphome>\jre\bin\java.dll` (candidate = apphome with
`\jre` appended, registry never consulted); only when neither local layout
exists is the registry probe consulted, exactly once, and its result is
used verbatim as the home on success. -/
theorem claim_C1 (env : Env) (pathsize : Nat) (home : List Char)
    (h : GetApplicationHome env.exePath = AppHomeResult.ok home) :
    (env.statOk (home ++ binJavaDll) = true →
        GetJREPath env pathsize = (JREPathResult.ok home, 0)) ∧
    (env.statOk (home ++ binJavaDll) = false →
      env.statOk (home ++ jreBinJavaDll) = true →
        GetJREPath env pathsize = (JREPathResult.ok (home ++ str "\\jre"), 0)) ∧
    (env.statOk (home ++ binJavaDll) = false →
      env.statOk (home ++ jreBinJavaDll) = false →
        (GetJREPath env pathsize).2 = 1 ∧
        (∀ rhome, (GetPublicJREHome env.reg pathsize).result = some rhome →
            (GetJREPath env pathsize).1 = JREPathResult.ok rhome) ∧
        ((GetPublicJREHome env.reg pathsize).result = none →
            (GetJREPath env pathsize).1 = JREPathResult.notFound)) := by
  refine ⟨?_, ?_, ?_⟩
  · intro hs
    simp [GetJREPath, h, hs]
  · intro h1 h2
    simp [GetJREPath, h, h1, h2]
  · intro h1 h2
    refine ⟨?_, ?_, ?_⟩
    · cases hr : (GetPublicJREHome env.reg pathsize).result <;>
        simp [GetJREPath, h, h1, h2, hr]
    · intro rhome hr
      simp [GetJREPath, h, h1, h2, hr]
    · intro hr
      simp [GetJREPath, h, h1, h2, hr]

theorem claim_C1_witness :
    GetApplicationHome (str "C:\\jdk\\bin\\java.exe") = AppHomeResult.ok (str "C:\\jdk") ∧
    GetJREPath
      (Env.mk (str "C:\\jdk\\bin\\java.exe") (fun _ => true)
        (Registry.mk false (fun _ => none) (fun _ => false) (fun _ _ => none)))
      256 = (JREPathResult.ok (str "C:\\jdk"), 0) :=
  ⟨by decide,
    (claim_C1
      (Env.mk (str "C:\\jdk\\bin\\java.exe") (fun _ => true)
        (Registry.mk false (fun _ => none) (fun _ => false) (fun _ _ => none)))
      256 (str "C:\\jdk") (by decide)).1 rfl⟩

/-! ## GetJVMPath -/

/-- Result of `GetJVMPath`: the success flag, the path written into the
caller's `jvmpath` buffer, and the list of paths passed to `stat` during
the call. -/
structure JVMPathOut where
  found : Bool
  jvmpath : List Char
  statCalls : List (List Char)
  deriving DecidableEq

/-- `GetJVMPath` from src/launcher/java_md.c: sprintf the single candidate
`<jrepath>\bin\<jvmtype>\jvm.dll` into the buffer and stat exactly that
path; succeed iff the stat succeeds. -/
def GetJVMPath (statOk : List Char → Bool) (jrepath jvmtype : List Char) :
    JVMPathOut :=
  let jvmpath := jrepath ++ str "\\bin\\" ++ jvmtype ++ str "\\jvm.dll"
  ⟨statOk jvmpath, jvmpath, [jvmpath]⟩

/-- Claim C2: for every home path and variant name, `GetJVMPath` constructs
exactly the path `<home>\bin\<variant>\jvm.dll`, returns success iff the
filesystem status query on that single constructed path succeeds, performs
no other stat call; and for home `C:\apps\foo` with variant `client` the
constructed path is exactly `C:\apps\foo\bin\client\jvm.dll`. -/
theorem claim_C2 (statOk : List Char → Bool) (home variant : List Char) :
    (GetJVMPath statOk home variant).jvmpath
        = home ++ str "\\bin\\" ++ variant ++ str "\\jvm.dll" ∧
    ((GetJVMPath statOk home variant).found = true ↔
        statOk (home ++ str "\\bin\\" ++ variant ++ str "\\jvm.dll") = true) ∧
    (GetJVMPath statOk home variant).statCalls
        = [(GetJVMPath statOk home variant).jvmpath] ∧
    (GetJVMPath statOk (str "C:\\apps\\foo") (str "client")).jvmpath
        = str "C:\\apps\\foo\\bin\\client\\jvm.dll" := by
  exact ⟨rfl, Iff.rfl, rfl, rfl⟩

/-! ## LoadJavaVM -/

/-- A mapped dynamic library: `getSym` models `GetProcAddress`, returning
the symbol's address or 0 (NULL) when the symbol is absent. -/
structure Lib where
  getSym : List Char → Nat

/-- The dynamic loader: `loadLibrary` models `LoadLibrary`, returning the
mapped library or `none` (NULL handle) when mapping fails. -/
structure LoadEnv where
  loadLibrary : List Char → Option Lib

/-- The caller-supplied entry-point table `InvocationFunctions`; an address
of 0 is a NULL function pointer. -/
structure InvocationFunctions where
  CreateJavaVM : Nat
  GetDefaultJavaVMInitArgs : Nat
  deriving DecidableEq

/-- Result of `LoadJavaVM`: the returned jboolean, the final state of the
caller's entry-point table, and the stderr diagnostics. -/
structure LoadResult where
  ok : Bool
  ifn : InvocationFunctions
  diags : List Diag
  deriving DecidableEq

def symCreateJavaVM : List Char := str "JNI_CreateJavaVM"

def symGetDefaultJavaVMInitArgs : List Char := str "JNI_GetDefaultJavaVMInitArgs"

/-- `LoadJavaVM` from src/launcher/java_md.c: map the library at `jvmpath`;
on mapping failure report and fail with the table untouched.  Otherwise
store both `GetProcAddress` results into the caller's table and only then
check them: if either is NULL, report the path and fail (the table keeps
the looked-up values); else succeed. -/
def LoadJavaVM (env : LoadEnv) (jvmpath : List Char)
    (ifn0 : InvocationFunctions) : LoadResult :=
  match env.loadLibrary jvmpath with
  | none => ⟨false, ifn0, [Diag.errLoading jvmpath]⟩
  | some lib =>
    let ifn1 : InvocationFunctions :=
      ⟨lib.getSym symCreateJavaVM, lib.getSym symGetDefaultJavaVMInitArgs⟩
    if ifn1.CreateJavaVM = 0 ∨ ifn1.GetDefaultJavaVMInitArgs = 0 then
      ⟨false, ifn1, [Diag.errNoJNI jvmpath]⟩
    else
      ⟨true, ifn1, []⟩

/-- Claim C3: for every path whose library maps successfully but which
exports neither required entry-point symbol, `LoadJavaVM` returns failure
(not a partial success) and reports the missing-symbols diagnostic naming
the path. -/
theorem claim_C3 (env : LoadEnv) (path : List Char)
    (ifn0 : InvocationFunctions) (lib : Lib)
    (h1 : env.loadLibrary path = some lib)
    (h2 : lib.getSym symCreateJavaVM = 0)
    (h3 : lib.getSym symGetDefaultJavaVMInitArgs = 0) :
    (LoadJavaVM env path ifn0).ok = false ∧
    (LoadJavaVM env path ifn0).diags = [Diag.errNoJNI path] := by
  simp [LoadJavaVM, h1, h2, h3]

theorem claim_C3_witness :
    (LoadEnv.mk (fun _ => some (Lib.mk (fun _ => 0)))).loadLibrary
        (str "C:\\jre\\bin\\client\\jvm.dll") = some (Lib.mk (fun _ => 0)) ∧
    (Lib.mk (fun _ => 0)).getSym symCreateJavaVM = 0 ∧
    (Lib.mk (fun _ => 0)).getSym symGetDefaultJavaVMInitArgs = 0 ∧
    ((LoadJavaVM (LoadEnv.mk (fun _ => some (Lib.mk (fun _ => 0))))
        (str "C:\\jre\\bin\\client\\jvm.dll") (InvocationFunctions.mk 7 8)).ok = false ∧
     (LoadJavaVM (LoadEnv.mk (fun _ => some (Lib.mk (fun _ => 0))))
        (str "C:\\jre\\bin\\client\\jvm.dll") (InvocationFunctions.mk 7 8)).diags
          = [Diag.errNoJNI (str "C:\\jre\\bin\\client\\jvm.dll")]) :=
  ⟨rfl, rfl, rfl,
    claim_C3 (LoadEnv.mk (fun _ => some (Lib.mk (fun _ => 0))))
      (str "C:\\jre\\bin\\client\\jvm.dll") (InvocationFunctions.mk 7 8)
      (Lib.mk (fun _ => 0)) rfl rfl rfl⟩

/-- Claim C10: whenever `LoadJavaVM` successfully maps the library, it
writes the results of both symbol lookups into the caller-supplied
entry-point table before checking them — so the final table holds exactly
the two looked-up addresses on the failure path as well as on success. -/
theorem claim_C10 (env : LoadEnv) (path : List Char)
    (ifn0 : InvocationFunctions) (lib : Lib)
    (h : env.loadLibrary path = some lib) :
    (LoadJavaVM env path ifn0).ifn.CreateJavaVM = lib.getSym symCreateJavaVM ∧
    (LoadJavaVM env path ifn0).ifn.GetDefaultJavaVMInitArgs
        = lib.getSym symGetDefaultJavaVMInitArgs := by
  simp only [LoadJavaVM, h]
  split <;> exact ⟨rfl, rfl⟩

theorem claim_C10_witness :
    (LoadEnv.mk (fun _ => some
        (Lib.mk (fun nm => if nm = symCreateJavaVM then 5 else 0)))).loadLibrary
        (str "C:\\jvm.dll")
      = some (Lib.mk (fun nm => if nm = symCreateJavaVM then 5 else 0)) ∧
    ((LoadJavaVM
        (LoadEnv.mk (fun _ => some
          (Lib.mk (fun nm => if nm = symCreateJavaVM then 5 else 0))))
        (str "C:\\jvm.dll") (InvocationFunctions.mk 7 8)).ifn.CreateJavaVM
      = (Lib.mk (fun nm => if nm = symCreateJavaVM then 5 else 0)).getSym
          symCreateJavaVM ∧
     (LoadJavaVM
        (LoadEnv.mk (fun _ => some
          (Lib.mk (fun nm => if nm = symCreateJavaVM then 5 else 0))))
        (str "C:\\jvm.dll") (InvocationFunctions.mk 7 8)).ifn.GetDefaultJavaVMInitArgs
      = (Lib.mk (fun nm => if nm = symCreateJavaVM then 5 else 0)).getSym
          symGetDefaultJavaVMInitArgs) ∧
    (LoadJavaVM
        (LoadEnv.mk (fun _ => some
          (Lib.mk (fun nm => if nm = symCreateJavaVM then 5 else 0))))
        (str "C:\\jvm.dll") (InvocationFunctions.mk 7 8)).ok = false ∧
    (LoadJavaVM
        (LoadEnv.mk (fun _ => some
          (Lib.mk (fun nm => if nm = symCreateJavaVM then 5 else 0))))
        (str "C:\\jvm.dll") (InvocationFunctions.mk 7 8)).ifn
      = InvocationFunctions.mk 5 0 ∧
    InvocationFunctions.mk 5 0 ≠ InvocationFunctions.mk 7 8 :=
  ⟨rfl,
    claim_C10
      (LoadEnv.mk (fun _ => some
        (Lib.mk (fun nm => if nm = symCreateJavaVM then 5 else 0))))
      (str "C:\\jvm.dll") (InvocationFunctions.mk 7 8)
      (Lib.mk (fun nm => if nm = symCreateJavaVM then 5 else 0)) rfl,
    by decide, by decide, by decide⟩

/-! ## Interval timer: CounterGet and Counter2Micros -/

/-- The process-wide timer state: the file-scope statics `counterAvailable`,
`counterInitialized` and `counterFrequency.QuadPart`. -/
structure CounterState where
  counterAvailable : Bool
  counterInitialized : Bool
  counterFrequency : Int
  deriving DecidableEq

/-- The statics before any call: both flags JNI_FALSE, frequency zeroed. -/
def initialCounterState : CounterState := ⟨false, false, 0⟩

/-- The hardware seen by one `CounterGet` call: whether
`QueryPerformanceFrequency` succeeds, the frequency it reports on success,
and the tick value `QueryPerformanceCounter` reports. -/
structure HW where
  qpfOk : Bool
  qpfFreq : Int
  qpcValue : Int

/-- `CounterGet` from src/launcher/java_md.c: on the first call (statics not
yet initialized) query the frequency once, recording availability and —
on success — the frequency, and mark the statics initialized; afterwards the
statics are left alone.  Returns 0 when the counter is unavailable, else
the current performance-counter value.  The result triple is (returned
jlong, statics after the call, whether this call queried the frequency). -/
def CounterGet (hw : HW) (s : CounterState) : Int × CounterState × Bool :=
  let s1 := if s.counterInitialized then s else
    ⟨hw.qpfOk, true, if hw.qpfOk then hw.qpfFreq else s.counterFrequency⟩
  ((if s1.counterAvailable then hw.qpcValue else 0), s1, !s.counterInitialized)

/-- `Counter2Micros` from src/launcher/java_md.c: zero when the counter is
unavailable or not yet initialized, else `(counts * 1000 * 1000)` divided by
the cached frequency with C's truncating jlong division. -/
def Counter2Micros (s : CounterState) (counts : Int) : Int :=
  if !s.counterAvailable || !s.counterInitialized then 0
  else Int.tdiv (counts * 1000 * 1000) s.counterFrequency

/-- A call to the timer API: `CounterGet` or `Counter2Micros` with a tick
argument. -/
inductive TimerCall
  | get
  | micros (counts : Int)

/-- Run a sequence of timer calls, each under its own hardware environment,
threading the process-wide statics.  Returns the final statics, the list of
returned values, and how many of the calls queried the hardware frequency. -/
def runTimer (s : CounterState) : List (HW × TimerCall) → CounterState × List Int × Nat
  | [] => (s, [], 0)
  | (hw, TimerCall.get) :: rest =>
    let out := CounterGet hw s
    let r := runTimer out.2.1 rest
    (r.1, out.1 :: r.2.1, (if out.2.2 then 1 else 0) + r.2.2)
  | (_, TimerCall.micros c) :: rest =>
    let r := runTimer s rest
    (r.1, Counter2Micros s c :: r.2.1, r.2.2)

theorem counterGet_of_initialized (hw : HW) (s : CounterState)
    (h : s.counterInitialized = true) :
    CounterGet hw s = ((if s.counterAvailable then hw.qpcValue else 0), s, false) := by
  simp [CounterGet, h]

theorem runTimer_of_initialized (s : CounterState)
    (h : s.counterInitialized = true) (calls : List (HW × TimerCall)) :
    (runTimer s calls).1 = s ∧ (runTimer s calls).2.2 = 0 := by
  induction calls with
  | nil => exact ⟨rfl, rfl⟩
  | cons hd rest ih =>
    obtain ⟨hw, c⟩ := hd
    cases c with
    | get =>
      simp only [runTimer, counterGet_of_initialized hw s h]
      exact ⟨ih.1, by simp [ih.2]⟩
    | micros c => exact ⟨ih.1, ih.2⟩

theorem runTimer_unavailable (s : CounterState)
    (h1 : s.counterInitialized = true) (h2 : s.counterAvailable = false)
    (calls : List (HW × TimerCall)) :
    ∀ x ∈ (runTimer s calls).2.1, x = 0 := by
  induction calls with
  | nil => intro x hx; simp [runTimer] at hx
  | cons hd rest ih =>
    obtain ⟨hw, c⟩ := hd
    cases c with
    | get =>
      intro x hx
      simp only [runTimer, counterGet_of_initialized hw s h1, h2,
        if_false, List.mem_cons] at hx
      rcases hx with hx | hx
      · simpa using hx
      · exact ih x hx
    | micros c =>
      intro x hx
      simp only [runTimer, List.mem_cons] at hx
      rcases hx with hx | hx
      · rw [hx, Counter2Micros]
        simp [h2]
      · exact ih x hx

/-- Claim C7: when the counter is available, `Counter2Micros` computes
exactly `(ticks * 1,000,000) / frequency` with C's truncating integer
division; in particular, for every available (positive) frequency `f`,
`Counter2Micros` applied to `f` ticks returns exactly 1,000,000. -/
theorem claim_C7 (s : CounterState) (t f : Int)
    (h1 : s.counterAvailable = true) (h2 : s.counterInitialized = true)
    (h3 : s.counterFrequency = f) (h4 : 0 < f) :
    Counter2Micros s t = Int.tdiv (t * 1000 * 1000) f ∧
    Counter2Micros s f = 1000000 := by
  constructor
  · simp [Counter2Micros, h1, h2, h3]
  · simp only [Counter2Micros, h1, h2, h3, Bool.not_true, Bool.or_self,
      Bool.false_eq_true, if_false]
    have hf : f * 1000 * 1000 = 1000000 * f := by ring
    rw [hf]
    exact Int.mul_tdiv_cancel 1000000 (ne_of_gt h4)

theorem claim_C7_witness :
    (CounterState.mk true true 7).counterAvailable = true ∧
    (CounterState.mk true true 7).counterInitialized = true ∧
    (CounterState.mk true true 7).counterFrequency = 7 ∧ (0 : Int) < 7 ∧
    (Counter2Micros (CounterState.mk true true 7) 3
        = Int.tdiv (3 * 1000 * 1000) 7 ∧
      Counter2Micros (CounterState.mk true true 7) 7 = 1000000) :=
  ⟨rfl, rfl, rfl, by decide,
    claim_C7 (CounterState.mk true true 7) 3 7 rfl rfl rfl (by decide)⟩

/-- Claim C8: if the one-time hardware frequency query of the first
`CounterGet` call fails, that call returns 0 and permanently afterwards —
for every subsequent call sequence, even under hardware whose frequency
query would now succeed — the statics never change (no retry), every
`CounterGet` returns the sentinel 0 and every `Counter2Micros` returns 0
regardless of its tick input. -/
theorem claim_C8 (hw0 : HW) (h : hw0.qpfOk = false)
    (calls : List (HW × TimerCall)) :
    (CounterGet hw0 initialCounterState).1 = 0 ∧
    (runTimer (CounterGet hw0 initialCounterState).2.1 calls).1
        = (CounterGet hw0 initialCounterState).2.1 ∧
    ∀ x ∈ (runTimer (CounterGet hw0 initialCounterState).2.1 calls).2.1, x = 0 := by
  have hs : CounterGet hw0 initialCounterState = (0, ⟨false, true, 0⟩, true) := by
    simp [CounterGet, initialCounterState, h]
  rw [hs]
  exact ⟨rfl, (runTimer_of_initialized ⟨false, true, 0⟩ rfl calls).1,
    runTimer_unavailable ⟨false, true, 0⟩ rfl rfl calls⟩

theorem claim_C8_witness :
    (HW.mk false 0 0).qpfOk = false ∧
    ((CounterGet (HW.mk false 0 0) initialCounterState).1 = 0 ∧
     (runTimer (CounterGet (HW.mk false 0 0) initialCounterState).2.1
        [(HW.mk true 1000 42, TimerCall.get),
         (HW.mk true 1000 42, TimerCall.micros 5000)]).1
        = (CounterGet (HW.mk false 0 0) initialCounterState).2.1 ∧
     ∀ x ∈ (runTimer (CounterGet (HW.mk false 0 0) initialCounterState).2.1
        [(HW.mk true 1000 42, TimerCall.get),
         (HW.mk true 1000 42, TimerCall.micros 5000)]).2.1, x = 0) :=
  ⟨rfl, claim_C8 (HW.mk false 0 0) rfl
    [(HW.mk true 1000 42, TimerCall.get),
     (HW.mk true 1000 42, TimerCall.micros 5000)]⟩

/-- Claim C9: the process-wide calibration statics start uninitialized, the
first `CounterGet` call queries the frequency and marks them initialized,
and once initialized no subsequent call — `CounterGet` under any hardware,
or any sequence of timer calls — re-queries the frequency or modifies the
cached calibration. -/
theorem claim_C9 (hw1 hw2 : HW) (s : CounterState)
    (calls : List (HW × TimerCall)) (h : s.counterInitialized = true) :
    initialCounterState.counterInitialized = false ∧
    (CounterGet hw1 initialCounterState).2.2 = true ∧
    (CounterGet hw1 initialCounterState).2.1.counterInitialized = true ∧
    (CounterGet hw2 s).2.2 = false ∧
    (CounterGet hw2 s).2.1 = s ∧
    (runTimer s calls).1 = s ∧
    (runTimer s calls).2.2 = 0 := by
  refine ⟨rfl, rfl, ?_, ?_, ?_, ?_, ?_⟩
  · simp [CounterGet, initialCounterState]
  · simp [CounterGet, h]
  · simp [CounterGet, h]
  · exact (runTimer_of_initialized s h calls).1
  · exact (runTimer_of_initialized s h calls).2

theorem claim_C9_witness :
    (CounterState.mk true true 1000).counterInitialized = true ∧
    (initialCounterState.counterInitialized = false ∧
     (CounterGet (HW.mk true 1000 42) initialCounterState).2.2 = true ∧
     (CounterGet (HW.mk true 1000 42) initialCounterState).2.1.counterInitialized = true ∧
     (CounterGet (HW.mk true 2000 43) (CounterState.mk true true 1000)).2.2 = false ∧
     (CounterGet (HW.mk true 2000 43) (CounterState.mk true true 1000)).2.1
        = CounterState.mk true true 1000 ∧
     (runTimer (CounterState.mk true true 1000)
        [(HW.mk true 2000 43, TimerCall.get),
         (HW.mk true 2000 43, TimerCall.micros 5000)]).1
        = CounterState.mk true true 1000 ∧
     (runTimer (CounterState.mk true true 1000)
        [(HW.mk true 2000 43, TimerCall.get),
         (HW.mk true 2000 43, TimerCall.micros 5000)]).2.2 = 0) :=
  ⟨rfl, claim_C9 (HW.mk true 1000 42) (HW.mk true 2000 43)
    (CounterState.mk true true 1000)
    [(HW.mk true 2000 43, TimerCall.get),
     (HW.mk true 2000 43, TimerCall.micros 5000)] rfl⟩

end JavaMd
